import Mathlib

/-!
Verification of the list-management pattern of the sirivaram-village-admin
single-page application.

The development shallowly embeds the parts of the page components that the
specified properties are about:

* the client-side search filter of the Users page
  (src/pages/Users/Users.jsx, `filteredUsers`);
* the interpretation of mutation responses
  (Users.jsx `updateUserStatus` / `deleteUser`, AdminPayments.jsx
  `verifyPayment` / `rejectPayment` / `deletePayment`, AdminBlogs `deleteItem`);
* the mutation handlers' effect on view state (reload count, busy token,
  item list);
* the "S No" row-ordinal computation and the table's client-side page
  windowing;
* the per-row action buttons' enablement;
* which click handlers interpose a Modal.confirm step before the remote
  mutating call;
* the list-fetch completion continuations and their liveness guarding
  (Users.jsx `fetchUsers`, AdminPayments.jsx `fetchPayments`, AdminBlogs
  `fetchItems`).

JavaScript strings are modelled as Lean `String` restricted to the ASCII
fragment: `toLowerCase` maps `Char.toLower` over the characters, `trim`
drops leading and trailing whitespace, and `includes` is substring
containment on the underlying character lists.
-/

namespace Sirivaram

/-! ### JavaScript string primitives -/

/-- Model of `String.prototype.toLowerCase` on the ASCII fragment. -/
def jsLower (s : String) : String :=
  ⟨s.data.map Char.toLower⟩

/-- Model of `String.prototype.trim`: drop leading and trailing whitespace. -/
def jsTrim (s : String) : String :=
  ⟨((s.data.dropWhile Char.isWhitespace).reverse.dropWhile Char.isWhitespace).reverse⟩

/-- Model of `hay.includes(needle)`: substring containment. -/
def strContains (hay needle : String) : Bool :=
  decide (needle.data <:+: hay.data)

/-- Model of `x === null || x === undefined ? "" : String(x)` for a
    possibly-absent string field (`Array.prototype.join` applies the same
    conversion). -/
def optStr : Option String → String
  | none => ""
  | some s => s

/-! ### Users page: data model and search filter (src/pages/Users/Users.jsx) -/

/-- A row of the Users table, with the fields the page reads.  Fields other
    than `id` may be absent in the server payload (the page reads them with
    optional chaining), hence `Option`. -/
structure User where
  id : Nat
  name : Option String
  mobile : Option String
  village : Option String
  address : Option String
  role : Option String
  status : Option String
deriving DecidableEq, Repr

/-- The per-user search blob of Users.jsx lines 193-204: the fields name,
    mobile, village, address, role, status, each normalised to a string,
    joined with a single space, lowercased. -/
def userBlob (u : User) : String :=
  jsLower (String.intercalate (" ")
    ([u.name, u.mobile, u.village, u.address, u.role, u.status].map optStr))

/-- Users.jsx lines 189-208 (`filteredUsers` useMemo): the search term is
    trimmed and lowercased; an empty result returns the full list, otherwise
    the list is filtered by blob containment. -/
def filteredUsers (users : List User) (debouncedSearch : String) : List User :=
  let q := jsLower (jsTrim debouncedSearch)
  if q = "" then users
  else users.filter (fun u => strContains (userBlob u) q)

/-- Modelled from the spec's words for comparison (claim C1): the filtered
    view contains exactly the items whose searched-field concatenation
    case-insensitively contains `q`, and `q = ""` yields the full list —
    with no trimming of `q`. -/
def specFilteredUsers (users : List User) (q : String) : List User :=
  if q = "" then users
  else users.filter (fun u => strContains (userBlob u) (jsLower q))

/-- Modelled from the spec's words for comparison (claim C9): the
    searched-field concatenation with exactly the fields name, mobile,
    village, role, status (no address). -/
def claimUserBlob (u : User) : String :=
  jsLower (String.intercalate (" ")
    ([u.name, u.mobile, u.village, u.role, u.status].map optStr))

/-! ### Helper lemmas about the filter -/

/-- The empty string is a substring of every string. -/
theorem strContains_empty (hay : String) : strContains hay ("") = true := by
  simp [strContains, List.nil_infix]

/-- `jsLower` of the empty string is empty, and conversely. -/
theorem jsLower_eq_empty_iff (s : String) : jsLower s = "" ↔ s = "" := by
  cases s with
  | mk data =>
    simp [jsLower, String.ext_iff]

/-- The code's filter agrees with filtering by blob containment of the
    trimmed, lowercased search term: when the trimmed term is empty the
    early return coincides with a filter by an always-true predicate. -/
theorem filteredUsers_eq_filter (users : List User) (q : String) :
    filteredUsers users q
      = users.filter (fun u => strContains (userBlob u) (jsLower (jsTrim q))) := by
  unfold filteredUsers
  by_cases h : jsLower (jsTrim q) = ""
  · rw [h]
    simp only [if_pos rfl]
    exact (List.filter_eq_self.mpr (fun u _ => strContains_empty (userBlob u))).symm
  · rw [if_neg h]

/-- Demo user whose only populated searched field is a name "x". -/
def uNameX : User := ⟨1, some ("x"), none, none, none, none, none⟩

/-- Demo user whose search term hit can only come from the address field. -/
def uAddrZebra : User := ⟨2, some ("a"), none, none, some ("zebra"), none, none⟩

/-! ### Remote mutation calls: transport model and outcome interpretation -/

/-- The response body fields the mutation handlers read: an optional boolean
    `success` flag and an optional `message`. -/
structure RespBody where
  success : Option Bool
  message : Option String
deriving DecidableEq, Repr

/-- Result of one remote mutating call.  `response ok body` is an HTTP
    response (`ok` = the status was 2xx, as `fetch`'s `res.ok` / axios'
    throw-on-non-2xx decide); `netFail` is a transport-level failure
    (network error or timeout) with no response at all. -/
inductive Transport where
  | response (ok : Bool) (body : RespBody)
  | netFail
deriving DecidableEq, Repr

/-- Users.jsx lines 210-243 (`updateUserStatus`, axios): a non-2xx status or
    a transport failure throws into the catch branch (failure); on a 2xx
    response the handler fails exactly when `res.data?.success !== false`
    is violated, i.e. when the body's `success` is explicitly `false`. -/
def updateUserStatusFails : Transport → Bool
  | .response true body => body.success == some false
  | .response false _ => true
  | .netFail => true

/-- Users.jsx lines 245-275 (`deleteUser`, axios): same interpretation as
    `updateUserStatus`. -/
def deleteUserFails : Transport → Bool
  | .response true body => body.success == some false
  | .response false _ => true
  | .netFail => true

/-- AdminPayments.jsx lines 193-208 (`verifyPayment`, fetch): the handler
    throws exactly when `!res.ok`; the response body is never read, so a
    2xx response is always success. -/
def verifyPaymentFails : Transport → Bool
  | .response ok _ => !ok
  | .netFail => true

/-- AdminPayments.jsx lines 210-225 (`rejectPayment`, fetch): failure iff
    `!res.ok` or transport failure; the body is never read. -/
def rejectPaymentFails : Transport → Bool
  | .response ok _ => !ok
  | .netFail => true

/-- AdminPayments.jsx lines 227-242 (`deletePayment`, fetch): failure iff
    `!res.ok` or transport failure; the body is never read. -/
def deletePaymentFails : Transport → Bool
  | .response ok _ => !ok
  | .netFail => true

/-- AdminBlogs (src/unnamed/part_001 lines 255-277, `deleteItem` onOk,
    fetch): failure iff `!res.ok` or transport failure. -/
def blogDeleteFails : Transport → Bool
  | .response ok _ => !ok
  | .netFail => true

/-- Modelled from the spec's words for comparison (claim C2): the outcome is
    a failure iff the transport reports a non-2xx status (or no response at
    all) or the body's `success` field is explicitly `false`. -/
def specInterpretsFailure : Transport → Bool
  | .response ok body => !ok || (body.success == some false)
  | .netFail => true

/-- Transport-only failure: non-2xx status or no response. -/
def transportFails : Transport → Bool
  | .response ok _ => !ok
  | .netFail => true

/-! ### Mutation handlers' effect on view state (claims C3 and C4) -/

/-- The `actionLoading` busy marker of Users.jsx: a pair of an optional item
    id and an optional action kind; `⟨none, none⟩` is the idle token. -/
structure ActionToken where
  id : Option Nat
  action : Option String
deriving DecidableEq, Repr

/-- Observable outcome of running one Users-page mutation handler to
    completion: number of list reloads it triggered, the busy token it
    leaves, and the items list it leaves. -/
structure MutationRun where
  reloads : Nat
  token : ActionToken
  users : List User
deriving DecidableEq, Repr

/-- Users.jsx lines 210-243 (`updateUserStatus`): set the busy token; on a
    2xx response without an explicit `success: false`, notify and await one
    `fetchUsers()` (which installs `fetched`); on failure only notify; in
    the finally block reset the token when the liveness flag is still set. -/
def runUpdateUserStatus (users : List User) (userId : Nat) (action : String)
    (t : Transport) (fetched : List User) (alive : Bool) : MutationRun :=
  let st : MutationRun := ⟨0, ⟨some userId, some action⟩, users⟩
  let st : MutationRun :=
    match t with
    | .response true body =>
        if body.success == some false then st
        else { st with reloads := st.reloads + 1, users := fetched }
    | .response false _ => st
    | .netFail => st
  if alive then { st with token := ⟨none, none⟩ } else st

/-- Users.jsx lines 245-275 (`deleteUser`): same shape as
    `updateUserStatus` with the fixed action kind "delete". -/
def runDeleteUser (users : List User) (userId : Nat)
    (t : Transport) (fetched : List User) (alive : Bool) : MutationRun :=
  let st : MutationRun := ⟨0, ⟨some userId, some ("delete")⟩, users⟩
  let st : MutationRun :=
    match t with
    | .response true body =>
        if body.success == some false then st
        else { st with reloads := st.reloads + 1, users := fetched }
    | .response false _ => st
    | .netFail => st
  if alive then { st with token := ⟨none, none⟩ } else st

/-- A row of the Blogs table (src/unnamed/part_001), with the fields the
    handlers read. -/
structure Blog where
  id : String
  title : Option String
  description : Option String
  isActive : Bool
deriving DecidableEq, Repr

/-- Observable outcome of the Blogs delete handler. -/
structure BlogDeleteRun where
  reloads : Nat
  deleteLoadingId : Option String
  items : List Blog
deriving DecidableEq, Repr

/-- src/unnamed/part_001 lines 255-277 (`deleteItem` onOk continuation):
    set the per-row delete busy id; on a 2xx response notify and trigger one
    `fetchItems()`; on failure only notify; in the finally block reset the
    busy id when the liveness flag is still set. -/
def runBlogDeleteConfirmed (items : List Blog) (blogId : String)
    (t : Transport) (fetched : List Blog) (alive : Bool) : BlogDeleteRun :=
  let st : BlogDeleteRun := ⟨0, some blogId, items⟩
  let st : BlogDeleteRun :=
    match t with
    | .response true _ => { st with reloads := st.reloads + 1, items := fetched }
    | .response false _ => st
    | .netFail => st
  if alive then { st with deleteLoadingId := none } else st

/-! ### Pagination and row ordinals (claim C5) -/

/-- The visible slice of the table for a given page and page size.  The
    table component is an external library; per the spec (section 4.4)
    pagination is purely a view-level windowing of the filtered list, so the
    slice is rows `(page-1)*pageSize .. (page-1)*pageSize + pageSize - 1`. -/
def visiblePage {α : Type} (rows : List α) (page pageSize : Nat) : List α :=
  (rows.drop ((page - 1) * pageSize)).take pageSize

/-- The "S No" cell of Users.jsx line 319 and AdminPayments.jsx line 333:
    `(page - 1) * pageSize + index + 1`, where `index` is the row index
    within the visible page. -/
def sNo (page pageSize index : Nat) : Nat :=
  (page - 1) * pageSize + index + 1

/-- A demo list of 25 users for the scenario of the spec. -/
def demoUsers : List User :=
  (List.range 25).map
    (fun k => ⟨k + 1, some ("U" ++ toString (k + 1)), none, none, none, none, none⟩)

/-! ### Per-row action enablement (claim C6) -/

/-- The three mutating row actions of the Users page. -/
inductive UserAction where
  | approve
  | reject
  | delete
deriving DecidableEq, Repr

/-- The `disabled` props of the three mutating action buttons. -/
structure RowButtons where
  approveDisabled : Bool
  rejectDisabled : Bool
  deleteDisabled : Bool
deriving DecidableEq, Repr

/-- Users.jsx lines 385-449 (Actions column render): `isPending` is
    `user.status === "PENDING"`; the approve and reject buttons carry
    `disabled={!isPending}`; the delete button has no `disabled` prop. -/
def usersRowButtons (u : User) : RowButtons :=
  let isPending := u.status == some ("PENDING")
  { approveDisabled := !isPending
    rejectDisabled := !isPending
    deleteDisabled := false }

/-- An action is invocable through the exposed interface exactly when its
    button is not disabled (a disabled button fires no click handler). -/
def actionInvocable (u : User) : UserAction → Bool
  | .approve => !(usersRowButtons u).approveDisabled
  | .reject => !(usersRowButtons u).rejectDisabled
  | .delete => !(usersRowButtons u).deleteDisabled

/-! ### Confirmation gating of mutating controls (claim C7) -/

/-- The user-facing controls that trigger a remote mutating call, across the
    pages the claim cites. -/
inductive MutatingControl where
  | usersApprove
  | usersReject
  | usersDelete
  | paymentsVerify
  | paymentsReject
  | paymentsDelete
  | blogsDelete
  | blogsToggleActive
deriving DecidableEq, Repr

/-- Whether the control's click handler interposes a `Modal.confirm` step,
    the remote call happening only in the dialog's `onOk` continuation.
    Transcribed per handler:
    Users.jsx: the three buttons call `confirmApprove` / `confirmReject` /
    `confirmDelete` (lines 277-311), each a `Modal.confirm` whose `onOk`
    runs the mutation.
    AdminPayments.jsx: the buttons call `confirmVerify` / `confirmReject` /
    `confirmDelete` (lines 244-278), same shape.
    Blogs (src/unnamed/part_001): the delete button calls `deleteItem`
    (lines 255-277), which wraps the call in `Modal.confirm`; the status
    `Switch` calls `toggleActive` (lines 279-301) directly from its
    `onChange`, issuing the PUT with no confirmation step. -/
def clickConfirmGated : MutatingControl → Bool
  | .usersApprove => true
  | .usersReject => true
  | .usersDelete => true
  | .paymentsVerify => true
  | .paymentsReject => true
  | .paymentsDelete => true
  | .blogsDelete => true
  | .blogsToggleActive => false

/-! ### List-fetch completions and liveness guarding (claims C8 and C10) -/

/-- Outcome of one list fetch, as the completion continuation sees it:
    a 2xx response whose parsed body is an array (`ok (some l)`) or not an
    array (`ok none`), an abort classified as cancellation, an abort
    classified as timeout, a non-2xx response with an optional extracted
    message, or a transport-level network error. -/
inductive FetchResult (α : Type) where
  | ok (arrayBody : Option (List α))
  | cancelled
  | timedOut
  | httpError (message : Option String)
  | netError
deriving DecidableEq, Repr

/-- A fetch outcome that takes the catch branch (everything except a 2xx
    response, whose non-array bodies are coerced to an empty list inside the
    try branch). -/
def fetchFailed {α : Type} : FetchResult α → Bool
  | .ok _ => false
  | _ => true

/-- The Users page's view state fields named by the spec. -/
structure UsersViewState where
  users : List User
  loading : Bool
  firstLoad : Bool
  error : String
deriving DecidableEq, Repr

/-- Users.jsx lines 162-169: the error message chosen in the catch branch
    ("CanceledError" / "AbortError" by name, else the response body's
    message, else the generic fallback). -/
def fetchUsersErrMsg : FetchResult User → String
  | .cancelled => "Request cancelled"
  | .timedOut => "Request timed out. Please try again."
  | .httpError (some m) => m
  | .httpError none => "Failed to load users. Please try again."
  | .netError => "Failed to load users. Please try again."
  | .ok _ => ""

/-- Users.jsx lines 151-182: the continuation of `fetchUsers` after the
    response arrives.  Every state write — the items in the try branch, the
    empty list and error in the catch branch, and the loading flags in the
    finally block — is guarded by the liveness flag. -/
def fetchUsersComplete (st : UsersViewState) (alive : Bool) :
    FetchResult User → UsersViewState
  | .ok body =>
      let list := match body with | some l => l | none => ([] : List User)
      let st1 := if alive then { st with users := list } else st
      if alive then { st1 with loading := false, firstLoad := false } else st1
  | e =>
      let st1 :=
        if alive then { st with users := [], error := fetchUsersErrMsg e } else st
      if alive then { st1 with loading := false, firstLoad := false } else st1

/-- A row of the Payments table, with the fields the page reads. -/
structure Payment where
  id : Nat
  payerName : Option String
  amount : Option Nat
  status : Option String
deriving DecidableEq, Repr

/-- The Payments page's view state fields (the page has no error field; it
    surfaces failures through toast messages only). -/
structure PaymentsViewState where
  payments : List Payment
  pageLoading : Bool
  firstLoad : Bool
deriving DecidableEq, Repr

/-- AdminPayments.jsx lines 109-145: the continuation of `fetchPayments`
    after the response arrives.  The component has no liveness flag, so the
    `alive` argument is ignored: the items are written in the try branch,
    the empty list in the catch branch, and the loading flags in the finally
    block, unconditionally. -/
def fetchPaymentsComplete (st : PaymentsViewState) (_alive : Bool) :
    FetchResult Payment → PaymentsViewState
  | .ok body =>
      let list := match body with | some l => l | none => ([] : List Payment)
      { st with payments := list, pageLoading := false, firstLoad := false }
  | _ => { st with payments := [], pageLoading := false, firstLoad := false }

/-- The Blogs page's view state fields. -/
structure BlogsViewState where
  items : List Blog
  pageLoading : Bool
  firstLoad : Bool
  error : String
deriving DecidableEq, Repr

/-- src/unnamed/part_001 line 154: the error message is the thrown error's
    message (for a non-2xx response the thrown `Error` carries the HTTP
    status text) or the generic fallback; transport-level error messages are
    collapsed to the fallback in this model. -/
def blogsFetchErrMsg : FetchResult Blog → String
  | .httpError (some m) => m
  | .httpError none => "Failed to load blogs"
  | .cancelled => "Failed to load blogs"
  | .timedOut => "Failed to load blogs"
  | .netError => "Failed to load blogs"
  | .ok _ => ""

/-- src/unnamed/part_001 lines 143-161: the continuation of `fetchItems`.
    The items write in the try branch, the empty-list write in the catch
    branch and the finally block's loading writes are guarded by the
    liveness flag, but the catch branch's `setError` is not. -/
def fetchBlogsComplete (st : BlogsViewState) (alive : Bool) :
    FetchResult Blog → BlogsViewState
  | .ok body =>
      let list := match body with | some l => l | none => ([] : List Blog)
      let st1 := if alive then { st with items := list } else st
      if alive then { st1 with pageLoading := false, firstLoad := false } else st1
  | e =>
      let st1 := { st with error := blogsFetchErrMsg e }
      let st2 := if alive then { st1 with items := [] } else st1
      if alive then { st2 with pageLoading := false, firstLoad := false } else st2

/-- Demo payment row. -/
def demoPayment : Payment := ⟨1, some ("P"), some 100, some ("PENDING_VERIFICATION")⟩

/-- Demo payments view state with a non-empty list and both loading flags
    set, as they are while a fetch is in flight. -/
def demoPaymentsState : PaymentsViewState := ⟨[demoPayment], true, true⟩

/-! ### Claim C1: the filtered view versus the raw search term -/

/-- Claim C1, as stated, is false on the code: with a single user whose
    name is "x" and the search term " x" (leading space), the code keeps
    the user although its searched-field concatenation does not contain
    " x" — the code matches the trimmed term, not the term itself. -/
theorem c1_counterexample :
    filteredUsers [uNameX] (" x") ≠ specFilteredUsers [uNameX] (" x") := by
  decide

/-- Claim C1 (amended): for every fetched list and search term q, the
    filtered view contains exactly the items whose searched-field
    concatenation case-insensitively contains the trimmed q, and every
    whitespace-only q (the empty q included) yields the full list. -/
theorem c1_filter_exact_on_trimmed_term (users : List User) (q : String) :
    filteredUsers users q
      = users.filter (fun u => strContains (userBlob u) (jsLower (jsTrim q)))
    ∧ (jsTrim q = "" → filteredUsers users q = users) := by
  refine ⟨filteredUsers_eq_filter users q, fun h => ?_⟩
  unfold filteredUsers
  rw [h]
  rfl

/-- Witness for the amended C1 theorem at the empty search term. -/
theorem c1_witness :
    jsTrim ("") = "" ∧ filteredUsers [uNameX] ("") = [uNameX] :=
  ⟨rfl, (c1_filter_exact_on_trimmed_term [uNameX] ("")).2 rfl⟩

/-! ### Claim C2: interpretation of mutation responses -/

/-- A 2xx response whose body carries an explicit `success: false`. -/
def tSuccessFalse : Transport := .response true ⟨some false, none⟩

/-- Claim C2, as stated, is false on the code: the Payments verify handler
    interprets a 2xx response with an explicit `success: false` body as
    success, while the claim says it is a failure. -/
theorem c2_counterexample :
    verifyPaymentFails tSuccessFalse = false
    ∧ specInterpretsFailure tSuccessFalse = true := by
  decide

/-- Claim C2 (amended): the Users-page mutations (approve/reject and
    delete, via axios) interpret failure exactly as a non-2xx status, a
    transport failure, or an explicit `success: false` body; the
    fetch-based mutations (Payments verify/reject/delete and the blog
    delete) interpret failure exactly as a non-2xx status or transport
    failure, never reading the body. -/
theorem c2_mutation_outcome_interpretation (t : Transport) :
    (updateUserStatusFails t = specInterpretsFailure t)
    ∧ (deleteUserFails t = specInterpretsFailure t)
    ∧ (verifyPaymentFails t = transportFails t)
    ∧ (rejectPaymentFails t = transportFails t)
    ∧ (deletePaymentFails t = transportFails t)
    ∧ (blogDeleteFails t = transportFails t) := by
  cases t with
  | response ok body =>
      cases ok <;>
        simp [updateUserStatusFails, deleteUserFails, verifyPaymentFails,
          rejectPaymentFails, deletePaymentFails, blogDeleteFails,
          specInterpretsFailure, transportFails]
  | netFail => exact ⟨rfl, rfl, rfl, rfl, rfl, rfl⟩

/-! ### Claim C3: success triggers one reload and frees the busy token -/

/-- Claim C3: in a live view, a Users-page mutation whose remote call is
    interpreted as success triggers exactly one list reload, and the busy
    token is idle when the handler finishes. -/
theorem c3_success_reloads_once_token_idle
    (users fetched : List User) (userId : Nat) (action : String)
    (t : Transport)
    (hu : updateUserStatusFails t = false)
    (hd : deleteUserFails t = false) :
    ((runUpdateUserStatus users userId action t fetched true).reloads = 1
      ∧ (runUpdateUserStatus users userId action t fetched true).token = ⟨none, none⟩)
    ∧ ((runDeleteUser users userId t fetched true).reloads = 1
      ∧ (runDeleteUser users userId t fetched true).token = ⟨none, none⟩) := by
  cases t with
  | response ok body =>
      cases ok with
      | true =>
          simp only [updateUserStatusFails] at hu
          simp only [deleteUserFails] at hd
          simp [runUpdateUserStatus, runDeleteUser, hu, hd]
      | false => simp [updateUserStatusFails] at hu
  | netFail => simp [updateUserStatusFails] at hu

/-- Witness for C3 at a plain 2xx response with no success field. -/
theorem c3_witness :
    updateUserStatusFails (Transport.response true ⟨none, none⟩) = false
    ∧ deleteUserFails (Transport.response true ⟨none, none⟩) = false
    ∧ (runUpdateUserStatus [uNameX] 7 ("approve")
        (Transport.response true ⟨none, none⟩) [] true).reloads = 1 :=
  ⟨by decide, by decide,
    (c3_success_reloads_once_token_idle [uNameX] [] 7 ("approve")
      (Transport.response true ⟨none, none⟩) (by decide) (by decide)).1.1⟩

/-! ### Claim C4: failure reloads nothing and leaves the items unchanged -/

/-- Claim C4: a mutation whose remote call is interpreted as failure
    triggers no list reload and leaves the locally held items list
    unchanged — for the Users approve/reject and delete handlers and the
    blog delete handler, live or not. -/
theorem c4_failure_no_reload_items_unchanged
    (users fetched : List User) (items fetchedB : List Blog)
    (userId : Nat) (action : String) (blogId : String)
    (t : Transport) (alive : Bool) :
    (updateUserStatusFails t = true →
      (runUpdateUserStatus users userId action t fetched alive).reloads = 0
      ∧ (runUpdateUserStatus users userId action t fetched alive).users = users
      ∧ (runDeleteUser users userId t fetched alive).reloads = 0
      ∧ (runDeleteUser users userId t fetched alive).users = users)
    ∧ (blogDeleteFails t = true →
      (runBlogDeleteConfirmed items blogId t fetchedB alive).reloads = 0
      ∧ (runBlogDeleteConfirmed items blogId t fetchedB alive).items = items) := by
  constructor
  · intro hu
    cases t with
    | response ok body =>
        cases ok with
        | true =>
            simp only [updateUserStatusFails] at hu
            cases alive <;>
              simp [runUpdateUserStatus, runDeleteUser, hu]
        | false => cases alive <;> simp [runUpdateUserStatus, runDeleteUser]
    | netFail => cases alive <;> simp [runUpdateUserStatus, runDeleteUser]
  · intro hb
    cases t with
    | response ok body =>
        cases ok with
        | true => simp [blogDeleteFails] at hb
        | false => cases alive <;> simp [runBlogDeleteConfirmed]
    | netFail => cases alive <;> simp [runBlogDeleteConfirmed]

/-- Witness for C4 at an HTTP failure response. -/
theorem c4_witness :
    updateUserStatusFails (Transport.response false ⟨none, none⟩) = true
    ∧ blogDeleteFails (Transport.response false ⟨none, none⟩) = true
    ∧ (runUpdateUserStatus [uNameX] 9 ("approve")
        (Transport.response false ⟨none, none⟩) [] true).users = [uNameX] :=
  ⟨by decide, by decide,
    ((c4_failure_no_reload_items_unchanged [uNameX] [] [] [] 9 ("approve") ("b")
      (Transport.response false ⟨none, none⟩) true).1 (by decide)).2.1⟩

/-! ### Claim C5: displayed row ordinals -/

/-- Claim C5: for every page ≥ 1 and page size, the displayed ordinal of
    row i of the visible page is `(page-1)*pageSize + i + 1`, and that row
    is element `(page-1)*pageSize + i` of the full list; in the 25-user
    scenario with pageSize 10 and page 2 the ten visible rows carry the
    ordinals 11 through 20. -/
theorem c5_sno_ordinals (rows : List User) (page pageSize i : Nat)
    (_hp : 1 ≤ page) (hi : i < pageSize) :
    (sNo page pageSize i = (page - 1) * pageSize + i + 1
      ∧ (visiblePage rows page pageSize)[i]? = rows[(page - 1) * pageSize + i]?)
    ∧ ((visiblePage demoUsers 2 10).length = 10
      ∧ (List.range 10).map (sNo 2 10)
          = [11, 12, 13, 14, 15, 16, 17, 18, 19, 20]) := by
  refine ⟨⟨rfl, ?_⟩, by decide, by decide⟩
  unfold visiblePage
  rw [List.getElem?_take, if_pos hi, List.getElem?_drop]

/-- Witness for C5 at the scenario's page 2, page size 10, first row. -/
theorem c5_witness :
    1 ≤ 2 ∧ 0 < 10
    ∧ (visiblePage demoUsers 2 10)[0]? = demoUsers[(2 - 1) * 10 + 0]? :=
  ⟨by decide, by decide,
    (c5_sno_ordinals demoUsers 2 10 0 (by decide) (by decide)).1.2⟩

/-! ### Claim C6: action enablement by status -/

/-- Claim C6: the approve and reject actions are invocable exactly when the
    row's status is PENDING, so only PENDING rows can move to APPROVED or
    REJECTED through the interface, while delete is invocable from every
    status. -/
theorem c6_action_enablement (u : User) :
    (actionInvocable u UserAction.approve = true ↔ u.status = some ("PENDING"))
    ∧ (actionInvocable u UserAction.reject = true ↔ u.status = some ("PENDING"))
    ∧ actionInvocable u UserAction.delete = true := by
  simp [actionInvocable, usersRowButtons]

/-- Demo user in the PENDING status. -/
def uPending : User := ⟨3, some ("p"), none, none, none, none, some ("PENDING")⟩

/-- Witness for C6 at a PENDING user. -/
theorem c6_witness :
    actionInvocable uPending UserAction.approve = true
    ∧ actionInvocable uPending UserAction.delete = true :=
  ⟨(c6_action_enablement uPending).1.mpr rfl,
    (c6_action_enablement uPending).2.2⟩

/-! ### Claim C7: the confirmation gate -/

/-- Claim C7, as stated, is false on the code: the blog active-status
    toggle issues its remote mutating call directly from the Switch's
    onChange, with no confirmation step. -/
theorem c7_counterexample :
    clickConfirmGated MutatingControl.blogsToggleActive = false := by
  decide

/-- Claim C7 (amended): every delete and every approve/reject/verify status
    transition passes through the confirmation gate before the remote
    mutating call; the blog isActive toggle is the one mutating control
    that calls the remote store directly. -/
theorem c7_confirm_gate (c : MutatingControl)
    (h : c ≠ MutatingControl.blogsToggleActive) :
    clickConfirmGated c = true := by
  cases c <;> first | rfl | exact absurd rfl h

/-- Witness for the amended C7 theorem at the Users delete control. -/
theorem c7_witness :
    MutatingControl.usersDelete ≠ MutatingControl.blogsToggleActive
    ∧ clickConfirmGated MutatingControl.usersDelete = true :=
  ⟨by decide, c7_confirm_gate MutatingControl.usersDelete (by decide)⟩

/-! ### Claim C8: post-teardown fetch responses -/

/-- Claim C8, as stated, is false on the code: the Payments list fetch has
    no liveness flag, so a response arriving after teardown still replaces
    the items and clears the loading flags. -/
theorem c8_counterexample :
    fetchPaymentsComplete demoPaymentsState false (FetchResult.ok (some []))
      ≠ demoPaymentsState := by
  decide

/-- Claim C8 (amended): on the Users page, a list-fetch response arriving
    after the liveness flag has been set false writes no field of the view
    state. -/
theorem c8_users_dead_fetch_noop (st : UsersViewState) (r : FetchResult User) :
    fetchUsersComplete st false r = st := by
  cases r <;> rfl

/-! ### Claim C10: failed fetches discard the items -/

/-- Claim C10: whenever a list fetch takes its catch branch (network error,
    timeout, HTTP failure or unparsable body), the previously fetched items
    are replaced by the empty list — on the Users, Payments and Blogs
    pages. -/
theorem c10_fetch_failure_empties_items
    (st : UsersViewState) (pst : PaymentsViewState) (bst : BlogsViewState)
    (r : FetchResult User) (rp : FetchResult Payment) (rb : FetchResult Blog)
    (h : fetchFailed r = true) (hp : fetchFailed rp = true)
    (hb : fetchFailed rb = true) :
    (fetchUsersComplete st true r).users = []
    ∧ (fetchPaymentsComplete pst true rp).payments = []
    ∧ (fetchBlogsComplete bst true rb).items = [] := by
  refine ⟨?_, ?_, ?_⟩
  · cases r <;> first | rfl | simp [fetchFailed] at h
  · cases rp <;> first | rfl | simp [fetchFailed] at hp
  · cases rb <;> first | rfl | simp [fetchFailed] at hb

/-- Witness for C10 at a timeout on each page. -/
theorem c10_witness :
    fetchFailed (FetchResult.timedOut (α := User)) = true
    ∧ (fetchPaymentsComplete demoPaymentsState true FetchResult.timedOut).payments
        = [] :=
  ⟨by decide,
    (c10_fetch_failure_empties_items ⟨[], false, false, ""⟩ demoPaymentsState
      ⟨[], false, false, ""⟩ FetchResult.timedOut FetchResult.timedOut
      FetchResult.timedOut (by decide) (by decide) (by decide)).2.1⟩

/-! ### Claim C9: the searched fields of the Users page -/

/-- Claim C9, as stated, is false on the code: a user whose only occurrence
    of the search term is in the address field is kept by the filter,
    although the concatenation of the five claimed fields (name, mobile,
    village, role, status) does not contain the term. -/
theorem c9_counterexample :
    filteredUsers [uAddrZebra] ("zebra") = [uAddrZebra]
    ∧ strContains (claimUserBlob uAddrZebra) (jsLower (jsTrim ("zebra"))) = false := by
  decide

/-- Claim C9 (amended): a user is in the filtered view exactly when it is
    in the fetched list and the concatenation of its name, mobile, village,
    address, role and status fields contains the trimmed, lowercased search
    term. -/
theorem c9_search_fields (users : List User) (q : String) (u : User) :
    u ∈ filteredUsers users q
      ↔ u ∈ users ∧ strContains (userBlob u) (jsLower (jsTrim q)) = true := by
  rw [filteredUsers_eq_filter]
  exact List.mem_filter

/-- Witness for the amended C9 theorem at the address-matching user. -/
theorem c9_witness :
    uAddrZebra ∈ filteredUsers [uAddrZebra] ("zebra") :=
  (c9_search_fields [uAddrZebra] ("zebra") uAddrZebra).mpr
    ⟨by decide, by decide⟩

end Sirivaram
